import Mathlib

/-!
Verification of the report moderation and recommendation microservices.

The definitions below are a shallow embedding of
`microservices/the_monkeys_reports/main.py`,
`microservices/the_monkeys_reports/models.py`,
`microservices/the_monkeys_recommendations/main.py` and
`microservices/the_monkeys_ai/main.py`.
-/

namespace Monkeys

/-! ## Python `int()` on strings

`CreateReport` calls `int(request.reporter_id)` and `int(request.reported_id)`
on protobuf string fields.  `pythonInt` models CPython `int(str)`:
surrounding whitespace is stripped, an optional single sign is allowed, and
the rest must be a digit part (digits with single underscores allowed
between digits).  `none` models the `ValueError` the call raises otherwise.
-/

/-- Accumulating digit scanner for `digitPart`: consumes digits, allowing a
single underscore between two digits, as Python grammar does. -/
def digitGo (acc : Nat) : List Char → Option Nat
  | [] => some acc
  | '_' :: d :: rest =>
      if d.isDigit then digitGo (acc * 10 + (d.toNat - 48)) rest else none
  | d :: rest =>
      if d.isDigit then digitGo (acc * 10 + (d.toNat - 48)) rest else none

/-- Python `digitpart ::= digit (["_"] digit)*`. -/
def digitPart : List Char → Option Nat
  | [] => none
  | c :: rest => if c.isDigit then digitGo (c.toNat - 48) rest else none

/-- Strip whitespace from both ends, as `int()` does before parsing. -/
def stripWhitespace (s : List Char) : List Char :=
  ((s.dropWhile Char.isWhitespace).reverse.dropWhile Char.isWhitespace).reverse

/-- Model of CPython `int(s)` for a string `s`: `some n` on success,
`none` when the call raises `ValueError`. -/
def pythonInt (s : String) : Option Int :=
  match stripWhitespace s.toList with
  | '+' :: rest => (digitPart rest).map Int.ofNat
  | '-' :: rest => (digitPart rest).map (fun n => -(n : Int))
  | rest => (digitPart rest).map Int.ofNat

/-! ## Data model (`the_monkeys_reports/models.py`)

Each column of the `reports` table is modelled as an `Option`: `none` is SQL
`NULL` / an unset attribute.  `CreateReport` sets only part of the columns;
`flag_count` carries the column default `0` declared in the model.
-/

/-- A row of the `reports` table (class `Report` in `models.py`).  Fields not
assigned by the application are `none`. -/
structure Report where
  report_id : Option Int := none
  reason_type : Option String := none
  flag_count : Option Int := none
  reporter_id : Option Int := none
  reported_type : Option String := none
  reported_blog_id : Option Int := none
  reported_user_id : Option Int := none
  status : Option String := none
  reporter_notes : Option String := none
  moderator_id : Option Int := none
  moderator_notes : Option String := none
  verdict : Option String := none
deriving DecidableEq, Repr

/-- A row of the `user_reports_flags` association table
(class `UserReportFlag` in `models.py`); the two columns form the composite
primary key. -/
structure UserReportFlag where
  user_id : Int
  report_id : Int
deriving DecidableEq, Repr

/-- The composite primary key of `user_reports_flags`: at most one row per
`(user_id, report_id)` pair, modelled as pairwise-distinct keys. -/
def flagTableKeyUnique (t : List UserReportFlag) : Prop :=
  t.Pairwise (fun a b => a.user_id ≠ b.user_id ∨ a.report_id ≠ b.report_id)

/-! ### Declared database constraints

`Report.__table_args__` declares four `CheckConstraint`s, copied verbatim
below, and `models.py` marks every column except `reported_blog_id`,
`reported_user_id` and the autoincrement key as non-nullable
(`Mapped[...]` without `Optional`).
-/

/-- SQL text of `CheckConstraint("status IN ('PENDING', 'IN_PROGRESS', 'RESOLVED')")`. -/
def statusCheckSql : String :=
  "status IN (\x27PENDING\x27, \x27IN_PROGRESS\x27, \x27RESOLVED\x27)"

/-- SQL text of `CheckConstraint("reported_type IN ('BLOG', 'USER')")`. -/
def reportedTypeCheckSql : String :=
  "reported_type IN (\x27BLOG\x27, \x27USER\x27)"

/-- SQL text of the `reason_type` `CheckConstraint`. -/
def reasonTypeCheckSql : String :=
  "reason_type IN (\x27SPAM\x27, \x27ABUSE\x27, \x27NSFW\x27, \x27MISINFORMATION\x27, \x27OTHER\x27)"

/-- SQL text of the `CheckConstraint` named `exactly_one_fk`, copied verbatim
from `models.py` line 53. -/
def exactlyOneFkSql : String :=
  "(reported_blog_id) IS NOT NULL) + (reported_user_id IS NOT NULL) = 1"

/-- Parenthesis scanner: `true` iff the parentheses of the character list are
balanced, tracking the current nesting depth. -/
def parenScan : List Char → Nat → Bool
  | [], depth => depth = 0
  | c :: rest, depth =>
      if c = '(' then parenScan rest (depth + 1)
      else if c = ')' then
        match depth with
        | 0 => false
        | d + 1 => parenScan rest d
      else parenScan rest depth

/-- A SQL expression can only be syntactically valid if its parentheses are
balanced; an unbalanced check expression is rejected by the database at DDL
time and therefore enforces nothing. -/
def sqlParensBalanced (s : String) : Bool := parenScan s.toList 0

/-- Semantics of the `status` check constraint on a row (SQL `CHECK` passes
on `NULL`). -/
def statusCheckOK (r : Report) : Bool :=
  match r.status with
  | none => true
  | some s => s = "PENDING" || s = "IN_PROGRESS" || s = "RESOLVED"

/-- Semantics of the `reported_type` check constraint on a row. -/
def reportedTypeCheckOK (r : Report) : Bool :=
  match r.reported_type with
  | none => true
  | some t => t = "BLOG" || t = "USER"

/-- Semantics of the `reason_type` check constraint on a row. -/
def reasonTypeCheckOK (r : Report) : Bool :=
  match r.reason_type with
  | none => true
  | some t => t = "SPAM" || t = "ABUSE" || t = "NSFW" || t = "MISINFORMATION" || t = "OTHER"

/-- The `NOT NULL` column constraints declared in `models.py`: every column
except the autoincrement key and the two reported ids is `Mapped[...]`
without `Optional`, hence non-nullable. -/
def reportNotNullOK (r : Report) : Bool :=
  r.reason_type.isSome && r.flag_count.isSome && r.reporter_id.isSome &&
  r.reported_type.isSome && r.status.isSome && r.reporter_notes.isSome &&
  r.moderator_id.isSome && r.moderator_notes.isSome && r.verdict.isSome

/-! ## `ReportsServiceServicer.CreateReport` (`the_monkeys_reports/main.py`) -/

/-- The gRPC `CreateReportRequest`; every field is a protobuf string. -/
structure CreateReportRequest where
  reporter_id : String
  reason_type : String
  reporter_notes : String
  reported_type : String
  reported_id : String
deriving DecidableEq, Repr

/-- The gRPC `CreateReportResponse` message. -/
structure CreateReportResponse where
  status : Int
  message : String
  error : String
deriving DecidableEq, Repr

/-- A Python exception escaping the handler uncaught (`int()` raises
`ValueError` outside the `try` block). -/
inductive PyExc
  | valueError
deriving DecidableEq, Repr

/-- Outcome of `session.add(new_report); session.commit()`, supplied by the
database: success, an `IntegrityError` with its message, or another
`SQLAlchemyError` with its message. -/
inductive DBOutcome
  | success
  | integrityError (msg : String)
  | sqlalchemyError (msg : String)
deriving DecidableEq, Repr

/-- The record the handler builds (`report_body` plus the branch on
`reported_type`, lines 39 to 51 of `main.py`), with the `flag_count` column
default `0` from `models.py` applied on insert.  `reporterId` and
`reportedId` are the already-converted integers. -/
def buildReport (req : CreateReportRequest) (reporterId reportedId : Int) : Report :=
  let base : Report :=
    { reporter_id := some reporterId
      reason_type := some req.reason_type
      reporter_notes := some req.reporter_notes
      reported_type := some req.reported_type
      flag_count := some 0 }
  if req.reported_type = "BLOG" then
    { base with reported_blog_id := some reportedId }
  else
    { base with reported_user_id := some reportedId }

/-- The handler up to the point where the new report is handed to the
session: converts `reporter_id` (line 40) and `reported_id` (lines 47/49)
with `int()` — a `ValueError` there escapes the handler — and otherwise
yields the `models.Report` row it will try to persist. -/
def createReportRecord (req : CreateReportRequest) : Except PyExc Report :=
  match pythonInt req.reporter_id with
  | none => .error .valueError
  | some reporterId =>
      match pythonInt req.reported_id with
      | none => .error .valueError
      | some reportedId => .ok (buildReport req reporterId reportedId)

/-- The response the handler returns for each database outcome
(lines 53 to 65 of `main.py`): both exception branches return
`status=0, message=""` with the exception message, the success branch
returns `status=1`. -/
def respond : DBOutcome → CreateReportResponse
  | .success => { status := 1, message := "Created report successfully", error := "" }
  | .integrityError m => { status := 0, message := "", error := m }
  | .sqlalchemyError m => { status := 0, message := "", error := m }

/-- The full handler: builds the record, then answers according to the
database outcome of the single insert attempt. -/
def createReport (req : CreateReportRequest) (db : DBOutcome) :
    Except PyExc (Report × CreateReportResponse) :=
  (createReportRecord req).map (fun r => (r, respond db))

/-! ## `RecommendationServiceServicer.GetRecommendations`

Identical in `the_monkeys_recommendations/main.py` and
`the_monkeys_ai/main.py`: the handler ignores the request's username and
returns fixed example data.
-/

/-- The gRPC `RecommendationRes` message.  `posts_to_read` holds opaque
`google.protobuf.Any` objects; the handler only ever produces the empty
list, so its element type is irrelevant and modelled by `Unit`. -/
structure RecommendationRes where
  topics : List String
  users_to_follow : List String
  posts_to_read : List Unit
deriving DecidableEq, Repr

/-- `GetRecommendations` as written in both services: fixed example lists,
the username argument unused. -/
def getRecommendations (username : String) : RecommendationRes :=
  { topics := ["Technology", "Science", "Music"]
    users_to_follow := ["user123", "user456", "user789"]
    posts_to_read := [] }

/-! ## `HealthHandler.do_GET` (`the_monkeys_ai/main.py`)

`time.time()` readings are modelled by an abstract numeric clock value: the
handler's branching and the shape of its JSON body do not depend on float
semantics, only on `now` and the recorded `server_start_time`.
-/

/-- A JSON value as far as the health body needs: a string or a number. -/
inductive JsonVal
  | str (s : String)
  | num (x : Int)
deriving DecidableEq, Repr

/-- The body of an HTTP response: either the serialized JSON object written
via `json.dumps` (modelled as its ordered field list) or a raw byte string. -/
inductive HttpBody
  | json (fields : List (String × JsonVal))
  | raw (s : String)
deriving DecidableEq, Repr

/-- An HTTP response as assembled by `send_response` / `send_header` /
`wfile.write`. -/
structure HttpResponse where
  statusCode : Nat
  contentType : Option String
  body : HttpBody
deriving DecidableEq, Repr

/-- The keys of a JSON body, in order; `none` for a raw body. -/
def HttpBody.jsonKeys : HttpBody → Option (List String)
  | .json fields => some (fields.map Prod.fst)
  | .raw _ => none

/-- `HealthHandler.do_GET`: on path `/health` or `/healthz` answer 200 with
the `health_status` JSON object, otherwise 404 with `Not Found`.  `now` is
the `time.time()` reading, `startTime` the global `server_start_time`. -/
def healthDoGET (path : String) (now startTime : Int) : HttpResponse :=
  if path = "/health" ∨ path = "/healthz" then
    { statusCode := 200
      contentType := some "application/json"
      body := .json
        [ ("status", .str "healthy")
        , ("service", .str "the_monkeys_ai")
        , ("timestamp", .num now)
        , ("uptime_seconds", .num (now - startTime)) ] }
  else
    { statusCode := 404
      contentType := none
      body := .raw "Not Found" }

/-! ## Theorems -/

/-- C1: for every valid `CreateReport` submission (parseable ids,
`reported_type` in the enumerated set), exactly one of `reported_blog_id`
and `reported_user_id` is set in the stored `Report` record, and the one
that is set matches `reported_type`. -/
theorem createReport_xor_matches_type (req : CreateReportRequest) (a b : Int)
    (h1 : pythonInt req.reporter_id = some a)
    (h2 : pythonInt req.reported_id = some b)
    (h3 : req.reported_type = "BLOG" ∨ req.reported_type = "USER") :
    ∃ r, createReportRecord req = .ok r ∧
      (r.reported_blog_id.isSome ^^ r.reported_user_id.isSome) = true ∧
      (req.reported_type = "BLOG" →
        r.reported_blog_id = some b ∧ r.reported_user_id = none) ∧
      (req.reported_type = "USER" →
        r.reported_user_id = some b ∧ r.reported_blog_id = none) := by
  refine ⟨buildReport req a b, by simp [createReportRecord, h1, h2], ?_, ?_, ?_⟩
  · by_cases hb : req.reported_type = "BLOG" <;> simp [buildReport, hb]
  · intro hb; simp [buildReport, hb]
  · intro hu
    have hb : req.reported_type ≠ "BLOG" := by simp [hu]
    simp [buildReport, hb]

/-- Witness for C1 at the concrete BLOG submission
`(reporter_id="1", reported_type="BLOG", reported_id="7", reason_type="SPAM")`. -/
theorem createReport_xor_matches_type_witness :
    ∃ r, createReportRecord
        { reporter_id := "1", reason_type := "SPAM", reporter_notes := ""
          reported_type := "BLOG", reported_id := "7" } = .ok r ∧
      (r.reported_blog_id.isSome ^^ r.reported_user_id.isSome) = true ∧
      ("BLOG" = "BLOG" → r.reported_blog_id = some 7 ∧ r.reported_user_id = none) ∧
      ("BLOG" = "USER" → r.reported_user_id = some 7 ∧ r.reported_blog_id = none) :=
  createReport_xor_matches_type _ 1 7 rfl rfl (Or.inl rfl)

/-- C2: at the scenario input
`(reporter_id="1", reported_type="BLOG", reported_id="7", reason_type="SPAM")`,
the row the handler hands to the store has `flag_count = 0`,
`reported_blog_id = 7` and `reported_user_id = NULL` as claimed, but its
`status` is left unset (`NULL`), not `PENDING`; the row even violates the
`NOT NULL` column constraints `models.py` itself declares (`status`,
`moderator_id`, `moderator_notes`, `verdict` are non-nullable and unset). -/
theorem createReport_scenario_status_unset :
    ∃ r, createReportRecord
        { reporter_id := "1", reason_type := "SPAM", reporter_notes := ""
          reported_type := "BLOG", reported_id := "7" } = .ok r ∧
      r.flag_count = some 0 ∧ r.reported_blog_id = some 7 ∧
      r.reported_user_id = none ∧ r.status = none ∧
      reportNotNullOK r = false :=
  ⟨_, rfl, rfl, rfl, rfl, rfl, rfl⟩

/-- C3 counterexample: the submission with `reported_type = "COMMENT"` is
not rejected before the store — the handler builds a row (with the id
mapped into `reported_user_id`) and hands it to the session; only the
database check constraint `reported_type IN ('BLOG','USER')` rules it
out. -/
theorem comment_submission_reaches_store :
    ∃ r, createReportRecord
        { reporter_id := "1", reason_type := "SPAM", reporter_notes := ""
          reported_type := "COMMENT", reported_id := "7" } = .ok r ∧
      r.reported_user_id = some 7 ∧ reportedTypeCheckOK r = false :=
  ⟨_, rfl, rfl, rfl⟩

/-- C3 amended: the handler performs no application-level validation of
`reported_type`; any submission with a type outside `{BLOG, USER}` (and
parseable ids) is mapped onto `reported_user_id` and handed to the store,
where only the database check constraint rejects it. -/
theorem createReport_no_type_validation (req : CreateReportRequest) (a b : Int)
    (h1 : pythonInt req.reporter_id = some a)
    (h2 : pythonInt req.reported_id = some b)
    (h3 : req.reported_type ≠ "BLOG") (h4 : req.reported_type ≠ "USER") :
    ∃ r, createReportRecord req = .ok r ∧ r.reported_user_id = some b ∧
      reportedTypeCheckOK r = false := by
  refine ⟨buildReport req a b, by simp [createReportRecord, h1, h2], ?_, ?_⟩
  · simp [buildReport, h3]
  · simp [buildReport, reportedTypeCheckOK, h3, h4]

/-- Witness for the amended C3 at `reported_type = "NONSENSE"`. -/
theorem createReport_no_type_validation_witness :
    ∃ r, createReportRecord
        { reporter_id := "1", reason_type := "SPAM", reporter_notes := ""
          reported_type := "NONSENSE", reported_id := "7" } = .ok r ∧
      r.reported_user_id = some 7 ∧ reportedTypeCheckOK r = false :=
  createReport_no_type_validation _ 1 7 rfl rfl (by decide) (by decide)

/-- C4 counterexample: the self-report
`(reporter_id=42, reported_type="USER", reported_id=42)` is not rejected:
no validation error is produced, the handler builds the report row with
`reporter_id = 42` and `reported_user_id = 42` and attempts to persist
it. -/
theorem self_report_not_rejected :
    ∃ r, createReportRecord
        { reporter_id := "42", reason_type := "SPAM", reporter_notes := ""
          reported_type := "USER", reported_id := "42" } = .ok r ∧
      r.reporter_id = some 42 ∧ r.reported_user_id = some 42 :=
  ⟨_, rfl, rfl, rfl⟩

/-- C4 amended: `CreateReport` contains no self-report check; whenever
`reported_type = "USER"` and both ids parse to the same integer, the
handler builds a row reporting the reporter's own account and proceeds to
the insert. -/
theorem createReport_no_self_report_check (req : CreateReportRequest) (a : Int)
    (h1 : pythonInt req.reporter_id = some a)
    (h2 : pythonInt req.reported_id = some a)
    (h3 : req.reported_type = "USER") :
    ∃ r, createReportRecord req = .ok r ∧
      r.reporter_id = some a ∧ r.reported_user_id = some a := by
  have hb : req.reported_type ≠ "BLOG" := by simp [h3]
  refine ⟨buildReport req a a, by simp [createReportRecord, h1, h2], ?_, ?_⟩ <;>
    simp [buildReport, hb]

/-- Witness for the amended C4 at ids `42`. -/
theorem createReport_no_self_report_check_witness :
    ∃ r, createReportRecord
        { reporter_id := "42", reason_type := "ABUSE", reporter_notes := ""
          reported_type := "USER", reported_id := "42" } = .ok r ∧
      r.reporter_id = some 42 ∧ r.reported_user_id = some 42 :=
  createReport_no_self_report_check _ 42 rfl rfl rfl

/-- C5: the check constraint named `exactly_one_fk` — the declared
database-level enforcement of the exactly-one-of
`reported_blog_id`/`reported_user_id` invariant — has unbalanced
parentheses in its SQL text, so it is not a valid SQL expression and the
database rejects it at DDL time; the other three declared check constraints
are well-parenthesized. -/
theorem exactly_one_fk_sql_malformed :
    sqlParensBalanced exactlyOneFkSql = false ∧
    sqlParensBalanced statusCheckSql = true ∧
    sqlParensBalanced reportedTypeCheckSql = true ∧
    sqlParensBalanced reasonTypeCheckSql = true :=
  ⟨rfl, rfl, rfl, rfl⟩

/-- C6 counterexample: the response to an `IntegrityError` (constraint
conflict) is byte-for-byte identical to the response to any other
`SQLAlchemyError` with the same message — there is no distinct
`ConstraintViolation` error type in the handler. -/
theorem integrity_response_not_distinct :
    respond (.integrityError "duplicate key value violates unique constraint") =
      respond (.sqlalchemyError "duplicate key value violates unique constraint") :=
  rfl

/-- C6 amended: on a persistence conflict the handler returns, without
retrying, a `status = 0` response with empty message carrying the
exception's text — distinct from the success response but of the same
shape as any other storage failure, not a typed `ConstraintViolation`. -/
theorem integrityError_response (m : String) :
    respond (.integrityError m) = { status := 0, message := "", error := m } ∧
    respond (.integrityError m) ≠ respond .success := by
  refine ⟨rfl, fun h => ?_⟩
  have hs := congrArg CreateReportResponse.status h
  simp [respond] at hs

/-- C7: `GetRecommendations` returns the same hardcoded example data for
every username: topics `Technology, Science, Music`, users to follow
`user123, user456, user789`, and no posts to read. -/
theorem getRecommendations_hardcoded (u v : String) :
    getRecommendations u = getRecommendations v ∧
    (getRecommendations u).topics = ["Technology", "Science", "Music"] ∧
    (getRecommendations u).users_to_follow = ["user123", "user456", "user789"] ∧
    (getRecommendations u).posts_to_read = [] :=
  ⟨rfl, rfl, rfl, rfl⟩

/-- C8: a `GET` whose path is exactly `/health` or `/healthz` is answered
with status 200 and a JSON body whose keys are `status`, `service`,
`timestamp` and `uptime_seconds`; any other path is answered with
status 404. -/
theorem healthDoGET_routes (path : String) (now startTime : Int) :
    ((path = "/health" ∨ path = "/healthz") →
      (healthDoGET path now startTime).statusCode = 200 ∧
      (healthDoGET path now startTime).body.jsonKeys =
        some ["status", "service", "timestamp", "uptime_seconds"]) ∧
    ((path ≠ "/health" ∧ path ≠ "/healthz") →
      (healthDoGET path now startTime).statusCode = 404) := by
  constructor
  · rintro (h | h) <;> subst h <;> exact ⟨rfl, rfl⟩
  · rintro ⟨h1, h2⟩
    have h : ¬(path = "/health" ∨ path = "/healthz") := by
      rintro (h | h) <;> [exact h1 h; exact h2 h]
    simp only [healthDoGET, if_neg h]

/-- Witness for C8 at concrete paths and clock readings. -/
theorem healthDoGET_routes_witness :
    (healthDoGET "/health" 10 3).statusCode = 200 ∧
    (healthDoGET "/healthz" 10 3).body.jsonKeys =
      some ["status", "service", "timestamp", "uptime_seconds"] ∧
    (healthDoGET "/metrics" 10 3).statusCode = 404 :=
  ⟨((healthDoGET_routes "/health" 10 3).1 (Or.inl rfl)).1,
   ((healthDoGET_routes "/healthz" 10 3).1 (Or.inr rfl)).2,
   (healthDoGET_routes "/metrics" 10 3).2 ⟨by decide, by decide⟩⟩

/-- C9: when `reporter_id` or `reported_id` does not parse as a Python
decimal integer, the `int()` conversion raises before any error branch, so
the handler returns no `CreateReportResponse` at all, whatever the database
would have answered. -/
theorem createReport_bad_int_raises (req : CreateReportRequest) (db : DBOutcome)
    (h : pythonInt req.reporter_id = none ∨ pythonInt req.reported_id = none) :
    createReport req db = .error .valueError := by
  rcases h with h | h
  · simp [createReport, createReportRecord, h, Except.map]
  · cases h1 : pythonInt req.reporter_id <;>
      simp [createReport, createReportRecord, h1, h, Except.map]

/-- Witness for C9 at `reporter_id = "abc"`. -/
theorem createReport_bad_int_raises_witness :
    createReport
        { reporter_id := "abc", reason_type := "SPAM", reporter_notes := ""
          reported_type := "BLOG", reported_id := "7" } .success =
      .error .valueError :=
  createReport_bad_int_raises _ _ (Or.inl rfl)

/-- C10: for every request whose `reported_type` is not exactly `"BLOG"` —
`"USER"`, the deprecated `"COMMENT"`, or any other string — the handler
puts `reported_id` into `reported_user_id` and leaves `reported_blog_id`
unset in the row it attempts to persist. -/
theorem createReport_nonblog_maps_to_user (req : CreateReportRequest) (a b : Int)
    (h1 : pythonInt req.reporter_id = some a)
    (h2 : pythonInt req.reported_id = some b)
    (h3 : req.reported_type ≠ "BLOG") :
    ∃ r, createReportRecord req = .ok r ∧
      r.reported_blog_id = none ∧ r.reported_user_id = some b := by
  refine ⟨buildReport req a b, by simp [createReportRecord, h1, h2], ?_, ?_⟩ <;>
    simp [buildReport, h3]

/-- Witness for C10 at the deprecated `reported_type = "COMMENT"`. -/
theorem createReport_nonblog_maps_to_user_witness :
    ∃ r, createReportRecord
        { reporter_id := "5", reason_type := "OTHER", reporter_notes := ""
          reported_type := "COMMENT", reported_id := "9" } = .ok r ∧
      r.reported_blog_id = none ∧ r.reported_user_id = some 9 :=
  createReport_nonblog_maps_to_user _ 5 9 rfl rfl (by decide)

end Monkeys
